import Mathlib

/-!
Verification of the picture-organizer program (src/main.py) against its
natural-language specification.  The program has two components:

* `find_images` — recursive discovery of files matching `*.<ext>` under a
  directory tree (here: `findImages` over an `FSTree`);
* `rename_image` — per-file date resolution and placement (here:
  `renameImage`), composed by a command-line driver (here: `mainRun`).

Machine dates are modelled as plain record values, strings as Lean strings
manipulated character-by-character (so that every definition evaluates
inside the kernel), and the filesystem effects of one `rename_image` call
as an explicit list of operations.
-/

/-- Lower-case conversion of one ASCII character; models CPython's
`str.lower` on the ASCII tag names that occur in `PIL.ExifTags.TAGS`. -/
def charLower (c : Char) : Char :=
  if 65 ≤ c.toNat ∧ c.toNat ≤ 90 then Char.ofNat (c.toNat + 32) else c

/-- Model of Python `s.lower()` for ASCII strings. -/
def strLower (s : String) : String :=
  ⟨s.data.map charLower⟩

/-- Tests whether `suf` is a suffix of `s` (Python `s.endswith(suf)`). -/
def strEndsWith (s suf : String) : Bool :=
  suf.data.isSuffixOf s.data

/-- Splits a character list at every occurrence of `c`; always returns a
non-empty list of (possibly empty) chunks. -/
def splitChar (c : Char) : List Char → List (List Char)
  | [] => [[]]
  | x :: xs =>
    let r := splitChar c xs
    if x = c then [] :: r
    else
      match r with
      | [] => [[x]]
      | y :: ys => (x :: y) :: ys

/-- Components of a `/`-separated path. -/
def pathParts (p : String) : List String :=
  (splitChar '/' p.data).map List.asString

/-- Model of `os.path.basename` for the forward-slash paths used here. -/
def basename (p : String) : String :=
  (pathParts p).getLastD ""

/-- Model of `os.path.dirname` for the forward-slash paths used here. -/
def dirname (p : String) : String :=
  String.intercalate "/" (pathParts p).dropLast

/-- Model of `os.path.join` on non-empty relative components. -/
def pathJoin (parts : List String) : String :=
  String.intercalate "/" parts

/-- Model of a Python `datetime.datetime` carrying `tzinfo=timezone.utc`.
All instants compared by the program are UTC-aware, so the timezone is
implicit and comparison is lexicographic on the six fields. -/
structure PyDateTime where
  year : Nat
  month : Nat
  day : Nat
  hour : Nat
  minute : Nat
  second : Nat
deriving DecidableEq

/-- Strict comparison of two datetimes (lexicographic on the fields). -/
def dtLt (a b : PyDateTime) : Bool :=
  if a.year ≠ b.year then decide (a.year < b.year)
  else if a.month ≠ b.month then decide (a.month < b.month)
  else if a.day ≠ b.day then decide (a.day < b.day)
  else if a.hour ≠ b.hour then decide (a.hour < b.hour)
  else if a.minute ≠ b.minute then decide (a.minute < b.minute)
  else decide (a.second < b.second)

/-- Python builtin `min(a, b)`: the first argument unless the second is
strictly smaller. -/
def pymin (a b : PyDateTime) : PyDateTime :=
  if dtLt b a then b else a

/-- Model of `datetime.datetime.combine(d, time.min, tzinfo=timezone.utc)`:
keep the calendar date, discard the time of day. -/
def startOfDayUTC (d : PyDateTime) : PyDateTime :=
  ⟨d.year, d.month, d.day, 0, 0, 0⟩

/-- Model of `earliest_date.strftime('%B')`.  The program never calls
`locale.setlocale`, so CPython's `strftime` runs in the C locale and `%B`
always yields the full English month name. -/
def monthName (m : Nat) : String :=
  match m with
  | 1 => "January"
  | 2 => "February"
  | 3 => "March"
  | 4 => "April"
  | 5 => "May"
  | 6 => "June"
  | 7 => "July"
  | 8 => "August"
  | 9 => "September"
  | 10 => "October"
  | 11 => "November"
  | 12 => "December"
  | _ => ""

/-- The twelve full English month names. -/
def englishMonths : List String :=
  ["January", "February", "March", "April", "May", "June", "July",
   "August", "September", "October", "November", "December"]

/-- Proleptic-Gregorian leap-year rule (as used by `datetime`). -/
def isLeapYear (y : Nat) : Bool :=
  (y % 4 == 0 && y % 100 != 0) || y % 400 == 0

/-- Number of days of month `m` in year `y`. -/
def daysInMonth (y m : Nat) : Nat :=
  if m = 2 then (if isLeapYear y then 29 else 28)
  else if m = 4 ∨ m = 6 ∨ m = 9 ∨ m = 11 then 30
  else 31

/-- Reads a decimal digit run, most significant first. -/
def digitsToNat (acc : Nat) : List Char → Option Nat
  | [] => some acc
  | c :: cs =>
    if 48 ≤ c.toNat ∧ c.toNat ≤ 57 then digitsToNat (acc * 10 + (c.toNat - 48)) cs
    else none

/-- Parses a non-empty all-digit chunk. -/
def parseDigits (s : List Char) : Option Nat :=
  match s with
  | [] => none
  | _ => digitsToNat 0 s

/-- Model of `datetime.datetime.strptime(data, '%Y:%m:%d %H:%M:%S')`:
`none` models the `ValueError` path.  `%Y` matches exactly four digits,
the other directives one or two digits, the whole string must be consumed,
and the fields must form a valid calendar datetime (CPython additionally
lets the literal blank match a whitespace run; the inputs used below never
exercise that corner). -/
def strptimeExif (s : String) : Option PyDateTime :=
  match splitChar ' ' s.data with
  | [datePart, timePart] =>
    match splitChar ':' datePart, splitChar ':' timePart with
    | [ys, ms, ds], [hs, ns, ss] =>
      if ys.length = 4 ∧ 1 ≤ ms.length ∧ ms.length ≤ 2 ∧ 1 ≤ ds.length ∧ ds.length ≤ 2
          ∧ 1 ≤ hs.length ∧ hs.length ≤ 2 ∧ 1 ≤ ns.length ∧ ns.length ≤ 2
          ∧ 1 ≤ ss.length ∧ ss.length ≤ 2 then
        match parseDigits ys, parseDigits ms, parseDigits ds,
            parseDigits hs, parseDigits ns, parseDigits ss with
        | some y, some mo, some d, some h, some mi, some sec =>
          if 1 ≤ y ∧ 1 ≤ mo ∧ mo ≤ 12 ∧ 1 ≤ d ∧ d ≤ daysInMonth y mo
              ∧ h ≤ 23 ∧ mi ≤ 59 ∧ sec ≤ 59 then
            some ⟨y, mo, d, h, mi, sec⟩
          else none
        | _, _, _, _, _, _ => none
      else none
    | _, _ => none
  | _ => none

/-- Result of `TAGS.get(tag_id, tag_id)`: either the symbolic tag name
(a `str`) or, when the id is not in the table, the numeric id itself. -/
inductive ResolvedTag where
  | name (s : String)
  | numeric (id : Nat)
deriving DecidableEq

/-- The lookup `TAGS.get(tag_id, tag_id)`, with the `PIL.ExifTags.TAGS`
table abstracted as a partial map `tags`. -/
def resolveTag (tags : Nat → Option String) (id : Nat) : ResolvedTag :=
  match tags id with
  | some s => .name s
  | none => .numeric id

/-- Embedding of the guard `if tag is not str: continue` (src/main.py
line 64).  CPython's `is` compares object identity, and the right-hand
side is the type object `str` itself; `TAGS.get` returns a `str` or `int`
instance, never the type object, so the test is true for every tag and the
rest of the loop body is unreachable. -/
def tagIsNotStr (_ : ResolvedTag) : Bool :=
  true

/-- One iteration of the exif loop of `rename_image` (src/main.py lines
61-74), folding a tag into the running earliest date `acc`.  A tag entry
is the pair of `tag_id` and the value `exifdata.get(tag_id)`. -/
def processExifTag (today : PyDateTime) (tags : Nat → Option String)
    (acc : PyDateTime) (t : Nat × String) : PyDateTime :=
  let tag := resolveTag tags t.1
  if tagIsNotStr tag then acc
  else
    match tag with
    | .name s =>
      if strLower s = "datetime" then
        let parsed :=
          match strptimeExif t.2 with
          | some d => d
          | none => today
        pymin acc (startOfDayUTC parsed)
      else acc
    | .numeric _ => acc

/-- The earliest-date computation of `rename_image` (src/main.py lines
54-74): start from `min(ctime, mtime)`, then, when the exif data is
non-empty (`if exifdata:`), fold every tag through the loop body. -/
def earliestDateOf (today : PyDateTime) (tags : Nat → Option String)
    (exif : List (Nat × String)) (ctime mtime : PyDateTime) : PyDateTime :=
  let init := pymin ctime mtime
  if exif.isEmpty then init
  else exif.foldl (processExifTag today tags) init

/-- One filesystem mutation performed by `rename_image`. -/
inductive FsOp where
  | makedirs (dir : String)
  | copy (src dst : String)
deriving DecidableEq

/-- The observable outcome of one `rename_image` call: the returned count
(`1` copied, `0` skipped), the destination path it computed (`none` when
the image could not be opened), and the filesystem operations performed. -/
structure PlaceResult where
  code : Nat
  dest : Option String
  ops : List FsOp
deriving DecidableEq

/-- One candidate file as the filesystem presents it to `rename_image`:
its path, the exif entries `Image.open(...).getexif()` would yield (`none`
when `Image.open` raises `OSError`, i.e. the file is not a decodable
image), its stat times read as UTC instants, and the permission answers
the filesystem would give to `os.makedirs` and `shutil.copy` for this
file's destination. -/
structure FileDesc where
  path : String
  image : Option (List (Nat × String))
  ctime : PyDateTime
  mtime : PyDateTime
  mkdirsDenied : Bool
  copyDenied : Bool
deriving DecidableEq

/-- The destination path `rename_image` computes (src/main.py lines
75-76): `os.path.join(storage, f'{year}', f'{month}', file_name)` with
the year and month of the earliest candidate date. -/
def computeDest (today : PyDateTime) (tags : Nat → Option String)
    (storage : String) (f : FileDesc) (exif : List (Nat × String)) : String :=
  let earliest := earliestDateOf today tags exif f.ctime f.mtime
  pathJoin [storage, toString earliest.year, monthName earliest.month, basename f.path]

/-- Embedding of `rename_image` (src/main.py lines 33-88).  An
`Except.error` models an exception escaping the function (the uncaught
`PermissionError` from `os.makedirs`, which sits outside the
`try`/`except` around `shutil.copy`); `Except.ok` carries the returned
count together with the destination and the filesystem operations
performed. -/
def renameImage (today : PyDateTime) (tags : Nat → Option String)
    (f : FileDesc) (storage : String) (dryrun : Bool) : Except String PlaceResult :=
  match f.image with
  | none => .ok ⟨0, none, []⟩
  | some exif =>
    let place := computeDest today tags storage f exif
    if dryrun then .ok ⟨1, some place, []⟩
    else if f.mkdirsDenied then .error "PermissionError: makedirs"
    else if f.copyDenied then .ok ⟨0, some place, [.makedirs (dirname place)]⟩
    else .ok ⟨1, some place, [.makedirs (dirname place), .copy f.path place]⟩

/-- The driver's processing loop (src/main.py lines 114-118): process the
found files in order, accumulating the returned counts; an exception
escaping `rename_image` aborts the whole run. -/
def processAll (today : PyDateTime) (tags : Nat → Option String)
    (storage : String) (dryrun : Bool) : List FileDesc → Except String Nat
  | [] => .ok 0
  | f :: rest =>
    match renameImage today tags f storage dryrun with
    | .error e => .error e
    | .ok r =>
      match processAll today tags storage dryrun rest with
      | .error e => .error e
      | .ok t => .ok (r.code + t)

/-- The observable outcome of a completed driver run: the process exit
code, the final summary line, and whether the safe-to-delete-source note
was appended. -/
structure DriverOutcome where
  exitCode : Nat
  summary : String
  safeNote : Bool
deriving DecidableEq

/-- Embedding of the driver (src/main.py lines 110-124) applied to the
found files: on normal completion the process exits 0, prints
`Copied {tot_moved} images to {storage}`, and appends the
safe-to-delete-source note exactly when every found file was counted. -/
def mainRun (today : PyDateTime) (tags : Nat → Option String)
    (files : List FileDesc) (storage : String) (dryrun : Bool) :
    Except String DriverOutcome :=
  match processAll today tags storage dryrun files with
  | .error e => .error e
  | .ok tot =>
    .ok ⟨0, "Copied " ++ toString tot ++ " images to " ++ storage, tot == files.length⟩

/-- The per-file result the driver adds to its tally (`num_moved`). -/
def resultOf (today : PyDateTime) (tags : Nat → Option String)
    (storage : String) (dryrun : Bool) (f : FileDesc) : Nat :=
  match renameImage today tags f storage dryrun with
  | .ok r => r.code
  | .error _ => 0

/-- A directory tree: the plain file names in this directory and the
named subdirectories. -/
inductive FSTree where
  | mk (files : List String) (subdirs : List (String × FSTree))

/-- File names of the root of a tree. -/
def FSTree.filesOf : FSTree → List String
  | .mk fs _ => fs

/-- Named subdirectories of the root of a tree. -/
def FSTree.subdirsOf : FSTree → List (String × FSTree)
  | .mk _ sd => sd

/-- Model of `glob.glob(os.path.join(directory, f'*.{ext}'))` membership
for a plain file name: the name matches `*.<ext>` and is not hidden
(glob's `*` does not match a leading dot). -/
def globMatch (ext : String) (nm : String) : Bool :=
  strEndsWith nm ("." ++ ext) && !(match nm.data with
    | c :: _ => c = '.'
    | [] => false)

/-- Model of `os.walk(p)` on a tree: every directory with its path,
top-down.  `fuel` bounds the recursion depth; any `fuel` larger than the
depth of the tree yields the complete walk. -/
def osWalk (fuel : Nat) (p : String) (t : FSTree) : List (String × FSTree) :=
  match fuel with
  | 0 => []
  | fuel + 1 =>
    (p, t) :: (t.subdirsOf.map (fun sc => osWalk fuel (p ++ "/" ++ sc.1) sc.2)).flatten

/-- Embedding of `find_images` (src/main.py lines 14-30): glob the
directory itself, then, for every directory yielded by `os.walk` that has
subdirectories, recurse into each subdirectory.  The Python recursion
terminates because every recursive call descends into a strict
subdirectory; `fuel` bounds that recursion depth, and any `fuel` larger
than the depth of the tree reproduces the Python result (the concrete
evaluations below use a tree of depth 3 with ample fuel). -/
def findImages (fuel : Nat) (dirPath : String) (t : FSTree) (ext : String) : List String :=
  match fuel with
  | 0 => []
  | fuel + 1 =>
    let here := (t.filesOf.filter (globMatch ext)).map (fun nm => dirPath ++ "/" ++ nm)
    let walked := osWalk (fuel + 1) dirPath t
    here ++ (walked.map (fun qn =>
      if qn.2.subdirsOf.length > 0 then
        (qn.2.subdirsOf.map (fun sc => findImages fuel (qn.1 ++ "/" ++ sc.1) sc.2 ext)).flatten
      else [])).flatten

/-- The guard `if tag is not str: continue` holds for every tag, so one
loop iteration never changes the running earliest date. -/
theorem processExifTag_id (today : PyDateTime) (tags : Nat → Option String)
    (acc : PyDateTime) (t : Nat × String) :
    processExifTag today tags acc t = acc := by
  simp [processExifTag, tagIsNotStr]

/-- Folding the exif loop over any tag list leaves the initial earliest
date unchanged. -/
theorem foldl_processExifTag (today : PyDateTime) (tags : Nat → Option String) :
    ∀ (l : List (Nat × String)) (init : PyDateTime),
      l.foldl (processExifTag today tags) init = init := by
  intro l
  induction l with
  | nil => intro init; rfl
  | cons h t ih =>
    intro init
    rw [List.foldl_cons, processExifTag_id, ih]

/-- The earliest date `rename_image` selects is always
`min(ctime, mtime)`: the metadata tags never contribute. -/
theorem earliestDateOf_eq (today : PyDateTime) (tags : Nat → Option String)
    (exif : List (Nat × String)) (ctime mtime : PyDateTime) :
    earliestDateOf today tags exif ctime mtime = pymin ctime mtime := by
  simp only [earliestDateOf, foldl_processExifTag]
  split <;> rfl

/-- `pymin` returns one of its two arguments. -/
theorem pymin_cases (a b : PyDateTime) : pymin a b = a ∨ pymin a b = b := by
  unfold pymin
  split
  · exact Or.inr rfl
  · exact Or.inl rfl

/-- For an in-range month number, `monthName` yields one of the twelve
full English month names. -/
theorem monthName_mem (m : Nat) (h1 : 1 ≤ m) (h2 : m ≤ 12) :
    monthName m ∈ englishMonths := by
  interval_cases m <;> simp [monthName, englishMonths]

/-- Four unfoldings of `Nat.toDigitsCore` on a four-digit number. -/
theorem toDigitsCore_length_four (k : Nat) :
    ∀ (n : Nat) (acc : List Char), 1000 ≤ n → n ≤ 9999 →
      (Nat.toDigitsCore 10 (k + 4) n acc).length = acc.length + 4 := by
  intro n acc h1 h2
  have e1 : Nat.toDigitsCore 10 (k + 4) n acc
      = if n / 10 = 0 then Nat.digitChar (n % 10) :: acc
        else Nat.toDigitsCore 10 (k + 3) (n / 10) (Nat.digitChar (n % 10) :: acc) := rfl
  rw [e1, if_neg (by omega)]
  have e2 : Nat.toDigitsCore 10 (k + 3) (n / 10) (Nat.digitChar (n % 10) :: acc)
      = if n / 10 / 10 = 0 then Nat.digitChar (n / 10 % 10) :: Nat.digitChar (n % 10) :: acc
        else Nat.toDigitsCore 10 (k + 2) (n / 10 / 10)
          (Nat.digitChar (n / 10 % 10) :: Nat.digitChar (n % 10) :: acc) := rfl
  rw [e2, if_neg (by omega)]
  have e3 : Nat.toDigitsCore 10 (k + 2) (n / 10 / 10)
        (Nat.digitChar (n / 10 % 10) :: Nat.digitChar (n % 10) :: acc)
      = if n / 10 / 10 / 10 = 0 then
          Nat.digitChar (n / 10 / 10 % 10) :: Nat.digitChar (n / 10 % 10)
            :: Nat.digitChar (n % 10) :: acc
        else Nat.toDigitsCore 10 (k + 1) (n / 10 / 10 / 10)
          (Nat.digitChar (n / 10 / 10 % 10) :: Nat.digitChar (n / 10 % 10)
            :: Nat.digitChar (n % 10) :: acc) := rfl
  rw [e3, if_neg (by omega)]
  have e4 : Nat.toDigitsCore 10 (k + 1) (n / 10 / 10 / 10)
        (Nat.digitChar (n / 10 / 10 % 10) :: Nat.digitChar (n / 10 % 10)
          :: Nat.digitChar (n % 10) :: acc)
      = if n / 10 / 10 / 10 / 10 = 0 then
          Nat.digitChar (n / 10 / 10 / 10 % 10) :: Nat.digitChar (n / 10 / 10 % 10)
            :: Nat.digitChar (n / 10 % 10) :: Nat.digitChar (n % 10) :: acc
        else Nat.toDigitsCore 10 k (n / 10 / 10 / 10 / 10)
          (Nat.digitChar (n / 10 / 10 / 10 % 10) :: Nat.digitChar (n / 10 / 10 % 10)
            :: Nat.digitChar (n / 10 % 10) :: Nat.digitChar (n % 10) :: acc) := rfl
  rw [e4, if_pos (by omega)]
  simp only [List.length_cons]

/-- The decimal rendering of a year between 1000 and 9999 has exactly
four characters. -/
theorem natToString_length_four (n : Nat) (h1 : 1000 ≤ n) (h2 : n ≤ 9999) :
    (toString n).length = 4 := by
  have hrepr : toString n = (Nat.toDigitsCore 10 (n + 1) n []).asString := rfl
  obtain ⟨k, hk⟩ : ∃ k, n + 1 = k + 4 := ⟨n - 3, by omega⟩
  have hlen : ((Nat.toDigitsCore 10 (n + 1) n []).asString).length
      = (Nat.toDigitsCore 10 (n + 1) n []).length := rfl
  rw [hrepr, hlen, hk, toDigitsCore_length_four k n [] h1 h2]
  rfl

/-- A `rename_image` call that returns normally returns 0 or 1. -/
theorem renameImage_code01 (today : PyDateTime) (tags : Nat → Option String)
    (f : FileDesc) (storage : String) (dryrun : Bool) (r : PlaceResult)
    (h : renameImage today tags f storage dryrun = .ok r) :
    r.code = 0 ∨ r.code = 1 := by
  unfold renameImage at h
  split at h
  · cases h; exact Or.inl rfl
  · split at h
    · cases h; exact Or.inr rfl
    · split at h
      · cases h
      · split at h
        · cases h; exact Or.inl rfl
        · cases h; exact Or.inr rfl

/-- `resultOf` is always 0 or 1. -/
theorem resultOf01 (today : PyDateTime) (tags : Nat → Option String)
    (storage : String) (dryrun : Bool) (f : FileDesc) :
    resultOf today tags storage dryrun f = 0 ∨ resultOf today tags storage dryrun f = 1 := by
  unfold resultOf
  split
  · exact renameImage_code01 today tags f storage dryrun _ (by assumption)
  · exact Or.inl rfl

/-- Summing a list of zeros and ones counts the ones. -/
theorem sum_eq_count_ones (g : FileDesc → Nat) (h01 : ∀ f, g f = 0 ∨ g f = 1) :
    ∀ files : List FileDesc,
      (files.map g).sum = (files.filter (fun f => g f == 1)).length := by
  intro files
  induction files with
  | nil => rfl
  | cons f rest ih =>
    rw [List.map_cons, List.sum_cons, List.filter_cons]
    rcases h01 f with h0 | h1
    · rw [h0]
      simpa using ih
    · rw [h1]
      simp [ih, Nat.add_comm]

/-- When every file of the list processes without an escaping exception,
the driver's tally is the sum of the per-file results. -/
theorem processAll_ok (today : PyDateTime) (tags : Nat → Option String)
    (storage : String) (dryrun : Bool) :
    ∀ files : List FileDesc,
      (∀ f ∈ files, ∃ r, renameImage today tags f storage dryrun = .ok r) →
      processAll today tags storage dryrun files =
        .ok ((files.map (resultOf today tags storage dryrun)).sum) := by
  intro files
  induction files with
  | nil => intro _; rfl
  | cons f rest ih =>
    intro h
    obtain ⟨r, hr⟩ := h f (List.mem_cons_self f rest)
    have hrest := ih (fun g hg => h g (List.mem_cons_of_mem f hg))
    unfold processAll
    rw [hr, hrest]
    have : resultOf today tags storage dryrun f = r.code := by
      unfold resultOf; rw [hr]
    rw [List.map_cons, List.sum_cons, this]

/-- The fragment of the `PIL.ExifTags.TAGS` table the fixtures need:
id 306 is the `DateTime` tag; every other id stays unresolved. -/
def tagsPIL : Nat → Option String :=
  fun id => if id = 306 then some "DateTime" else none

/-- A run instant used by the concrete evaluations. -/
def todayMid2025 : PyDateTime := ⟨2025, 6, 1, 9, 30, 0⟩

/-- C1 failing input: a readable image carrying a well-formed `DateTime`
tag `2019:11:02 10:00:00` that is earlier than both filesystem times
(2021-03-05 12:00:00 UTC). -/
def c1File : FileDesc :=
  ⟨"pics/img.jpg", some [(306, "2019:11:02 10:00:00")], ⟨2021, 3, 5, 12, 0, 0⟩,
    ⟨2021, 3, 5, 12, 0, 0⟩, false, false⟩

/-- C1: evaluation of `rename_image` at the failing input.  The claim
says the destination year and month come from the metadata tag
(2019/November); the code instead places the file under 2021/March,
because the guard `if tag is not str: continue` compares the resolved tag
with the type object `str` by identity and therefore skips every tag, so
the filesystem minimum is used. -/
theorem C1_code_eval :
    renameImage todayMid2025 tagsPIL c1File "store" false =
      .ok ⟨1, some "store/2021/March/img.jpg",
        [.makedirs "store/2021/March",
         .copy "pics/img.jpg" "store/2021/March/img.jpg"]⟩ := by
  rfl

/-- C2 failing input: a directory tree with a matching image at the root,
one in the depth-1 subdirectory `s1`, one in the depth-2 subdirectory
`s1/s2`, and one non-matching file at the root. -/
def c2Tree : FSTree :=
  .mk ["a.jpg", "notes.txt"] [("s1", .mk ["b.jpg"] [("s2", .mk ["c.jpg"] [])])]

/-- C2: evaluation of `find_images` at the failing input.  The claim says
every matching file appears exactly once and no directory is traversed
twice; the code returns the depth-2 file `root/s1/s2/c.jpg` twice,
because `find_images` recurses into every subdirectory yielded by
`os.walk` on top of its own recursion, reaching `s2` both from the root
call's walk and from the recursive call on `s1`.  The non-matching
`notes.txt` is correctly excluded and `a.jpg` and `b.jpg` appear once. -/
theorem C2_code_eval :
    findImages 10 "root" c2Tree "jpg" =
      ["root/a.jpg", "root/s1/b.jpg", "root/s1/s2/c.jpg", "root/s1/s2/c.jpg"] ∧
    List.count "root/s1/s2/c.jpg" (findImages 10 "root" c2Tree "jpg") = 2 := by
  exact ⟨rfl, rfl⟩

/-- C3 counterexample input: a readable image whose destination directory
creation is denied by the filesystem. -/
def c3File : FileDesc :=
  ⟨"pics/p.jpg", some [], ⟨2021, 3, 5, 12, 0, 0⟩, ⟨2021, 3, 5, 12, 0, 0⟩, true, false⟩

/-- C3 counterexample: the claim says a permission failure during
destination directory creation yields a per-file error and `Skipped` (0)
with the run continuing; at this input `os.makedirs` raises an uncaught
`PermissionError` (it sits outside the `try` that guards `shutil.copy`),
so `rename_image` does not return at all and the run aborts. -/
theorem C3_counterexample :
    renameImage todayMid2025 tagsPIL c3File "store" false =
      .error "PermissionError: makedirs" := by
  rfl

/-- C3 (amended): a permission failure during the copy is caught:
`rename_image` reports the error, returns `Skipped` (0), and the run
continues with the remaining files; only a permission failure during
destination directory creation escapes and aborts the run. -/
theorem C3_amended_copy_denied (today : PyDateTime) (tags : Nat → Option String)
    (f : FileDesc) (storage : String) (exif : List (Nat × String))
    (rest : List FileDesc) (himg : f.image = some exif)
    (hmk : f.mkdirsDenied = false) (hcp : f.copyDenied = true) :
    renameImage today tags f storage false =
      .ok ⟨0, some (computeDest today tags storage f exif),
        [.makedirs (dirname (computeDest today tags storage f exif))]⟩ ∧
    processAll today tags storage false (f :: rest) =
      processAll today tags storage false rest := by
  have h1 : renameImage today tags f storage false =
      .ok ⟨0, some (computeDest today tags storage f exif),
        [.makedirs (dirname (computeDest today tags storage f exif))]⟩ := by
    unfold renameImage
    rw [himg]
    simp [hmk, hcp]
  refine ⟨h1, ?_⟩
  show (match renameImage today tags f storage false with
      | .error e => .error e
      | .ok r =>
        match processAll today tags storage false rest with
        | .error e => .error e
        | .ok t => .ok (r.code + t)) =
    processAll today tags storage false rest
  rw [h1]
  cases hrest : processAll today tags storage false rest with
  | error e => rfl
  | ok t => simp

/-- C3 witness input: a readable image whose copy (but not directory
creation) is denied. -/
def c3bFile : FileDesc :=
  ⟨"pics/q.jpg", some [], ⟨2021, 3, 5, 12, 0, 0⟩, ⟨2021, 4, 6, 12, 0, 0⟩, false, true⟩

/-- C3 witness: the amended statement evaluated at a concrete input. -/
theorem C3_amended_witness :
    renameImage todayMid2025 tagsPIL c3bFile "store" false =
      .ok ⟨0, some "store/2021/March/q.jpg", [.makedirs "store/2021/March"]⟩ ∧
    processAll todayMid2025 tagsPIL "store" false [c3bFile] = .ok 0 := by
  have h := C3_amended_copy_denied todayMid2025 tagsPIL c3bFile "store" [] [] rfl rfl rfl
  exact ⟨h.1.trans (by rfl), h.2.trans (by rfl)⟩

/-- Unfolding of `rename_image` on a readable image: the four possible
outcomes, each reporting the same computed destination. -/
theorem renameImage_some (today : PyDateTime) (tags : Nat → Option String)
    (f : FileDesc) (storage : String) (dryrun : Bool) (exif : List (Nat × String))
    (himg : f.image = some exif) :
    renameImage today tags f storage dryrun =
      (if dryrun then .ok ⟨1, some (computeDest today tags storage f exif), []⟩
       else if f.mkdirsDenied then .error "PermissionError: makedirs"
       else if f.copyDenied then
         .ok ⟨0, some (computeDest today tags storage f exif),
           [.makedirs (dirname (computeDest today tags storage f exif))]⟩
       else
         .ok ⟨1, some (computeDest today tags storage f exif),
           [.makedirs (dirname (computeDest today tags storage f exif)),
            .copy f.path (computeDest today tags storage f exif)]⟩) := by
  unfold renameImage
  rw [himg]

/-- C4: for a readable image none of whose tags resolves to a name that
compares case-insensitively equal to "datetime", the destination path is
`storage/<year>/<month-name>/<basename>` taken from
`min(creation_time, modification_time)`, and any normal return of
`rename_image` reports exactly that destination. -/
theorem C4_no_metadata_dest (today : PyDateTime) (tags : Nat → Option String)
    (storage : String) (f : FileDesc) (exif : List (Nat × String))
    (himg : f.image = some exif)
    (_hnodt : ∀ t ∈ exif, ∀ s, tags t.1 = some s → strLower s ≠ "datetime") :
    computeDest today tags storage f exif =
      storage ++ "/" ++ toString (pymin f.ctime f.mtime).year ++ "/" ++
        monthName (pymin f.ctime f.mtime).month ++ "/" ++ basename f.path ∧
    ∀ (dryrun : Bool) (r : PlaceResult),
      renameImage today tags f storage dryrun = .ok r →
        r.dest = some (computeDest today tags storage f exif) := by
  constructor
  · unfold computeDest
    rw [earliestDateOf_eq]
    rfl
  · intro dryrun r h
    rw [renameImage_some today tags f storage dryrun exif himg] at h
    split at h
    · cases h; rfl
    · split at h
      · cases h
      · split at h
        · cases h; rfl
        · cases h; rfl

/-- C4 witness input: a readable image with one non-datetime tag (271 is
`Make`, unresolved by the fixture table) and distinct stat times. -/
def c4File : FileDesc :=
  ⟨"d/photo.jpg", some [(271, "NikonCorp")], ⟨2018, 12, 31, 23, 59, 59⟩,
    ⟨2019, 1, 1, 0, 0, 0⟩, false, false⟩

/-- C4 witness: the destination of the witness input is taken from
`min(ctime, mtime)` = 2018-12-31. -/
theorem C4_witness :
    computeDest todayMid2025 tagsPIL "store" c4File [(271, "NikonCorp")] =
      "store/2018/December/photo.jpg" := by
  have h := C4_no_metadata_dest todayMid2025 tagsPIL "store" c4File [(271, "NikonCorp")]
    rfl (by
      intro t ht s hs
      simp only [List.mem_singleton] at ht
      subst ht
      simp [tagsPIL] at hs)
  exact h.1.trans (by rfl)

/-- C5 run instant (2000-01-01, earlier than the file's stat times). -/
def todayY2000 : PyDateTime := ⟨2000, 1, 1, 9, 30, 0⟩

/-- C5 failing input: a readable image whose `DateTime` tag value does not
parse under `%Y:%m:%d %H:%M:%S`. -/
def c5File : FileDesc :=
  ⟨"pics/bad.jpg", some [(306, "not a date")], ⟨2021, 3, 5, 12, 0, 0⟩,
    ⟨2021, 3, 5, 12, 0, 0⟩, false, false⟩

/-- C5: evaluation of `rename_image` at the failing input.  The call
indeed does not throw, but the claim also says the malformed tag
contributes the current date (here 2000-01-01, which would win the
minimum and give `store/2000/January/bad.jpg`); the code never reaches
the parse fallback, because `if tag is not str: continue` skips every
tag, so the file lands under the filesystem date 2021/March instead. -/
theorem C5_code_eval :
    renameImage todayY2000 tagsPIL c5File "store" false =
      .ok ⟨1, some "store/2021/March/bad.jpg",
        [.makedirs "store/2021/March",
         .copy "pics/bad.jpg" "store/2021/March/bad.jpg"]⟩ := by
  rfl

/-- C6: for a file that cannot be opened as an image, `rename_image`
returns `Skipped` (0), performs no filesystem operation and reports no
destination, and the driver's loop continues with the remaining files,
the skipped file contributing nothing to the tally. -/
theorem C6_unreadable_skipped (today : PyDateTime) (tags : Nat → Option String)
    (f : FileDesc) (storage : String) (dryrun : Bool) (rest : List FileDesc)
    (h : f.image = none) :
    renameImage today tags f storage dryrun = .ok ⟨0, none, []⟩ ∧
    processAll today tags storage dryrun (f :: rest) =
      processAll today tags storage dryrun rest := by
  have h1 : renameImage today tags f storage dryrun = .ok ⟨0, none, []⟩ := by
    unfold renameImage
    rw [h]
  refine ⟨h1, ?_⟩
  show (match renameImage today tags f storage dryrun with
      | .error e => .error e
      | .ok r =>
        match processAll today tags storage dryrun rest with
        | .error e => .error e
        | .ok t => .ok (r.code + t)) =
    processAll today tags storage dryrun rest
  rw [h1]
  cases hrest : processAll today tags storage dryrun rest with
  | error e => rfl
  | ok t => simp

/-- C6 witness input: an unreadable (undecodable) file. -/
def c6File : FileDesc :=
  ⟨"pics/corrupt.jpg", none, ⟨2021, 3, 5, 12, 0, 0⟩, ⟨2021, 3, 5, 12, 0, 0⟩,
    false, false⟩

/-- C6 witness: the unreadable-image behaviour evaluated concretely. -/
theorem C6_witness :
    renameImage todayMid2025 tagsPIL c6File "store" false = .ok ⟨0, none, []⟩ ∧
    processAll todayMid2025 tagsPIL "store" false [c6File] = .ok 0 := by
  have h := C6_unreadable_skipped todayMid2025 tagsPIL c6File "store" false [] rfl
  exact ⟨h.1, h.2.trans (by rfl)⟩

/-- C7: for a readable image, a dry run performs the date resolution and
destination computation (the reported destination is the deterministic
`computeDest` of the inputs, so repeated dry runs report identical
destinations), performs no filesystem operation, and returns `Moved`
(1). -/
theorem C7_dryrun_no_mutation (today : PyDateTime) (tags : Nat → Option String)
    (f : FileDesc) (storage : String) (exif : List (Nat × String))
    (h : f.image = some exif) :
    renameImage today tags f storage true =
      .ok ⟨1, some (computeDest today tags storage f exif), []⟩ := by
  rw [renameImage_some today tags f storage true exif h]
  rfl

/-- C7 witness input: a readable image processed with `dry_run` set. -/
def c7File : FileDesc :=
  ⟨"pics/r.jpg", some [], ⟨2021, 7, 1, 0, 0, 0⟩, ⟨2021, 8, 1, 0, 0, 0⟩,
    false, false⟩

/-- C7 witness: the dry-run behaviour evaluated concretely; the mkdirs
and copy permission answers are irrelevant because nothing is touched. -/
theorem C7_witness :
    renameImage todayMid2025 tagsPIL c7File "store" true =
      .ok ⟨1, some "store/2021/July/r.jpg", []⟩ := by
  have h := C7_dryrun_no_mutation todayMid2025 tagsPIL c7File "store" [] rfl
  exact h.trans (by rfl)

/-- Validity bounds for a stat-derived datetime: an in-range month and a
four-digit year (Python's `datetime` itself enforces year ≤ 9999, and any
non-negative Unix timestamp yields year ≥ 1970). -/
abbrev validYM (d : PyDateTime) : Prop :=
  1 ≤ d.month ∧ d.month ≤ 12 ∧ 1000 ≤ d.year ∧ d.year ≤ 9999

/-- C8: the month-name component of the destination is the full English
month name of the selected earliest date (the embedding's `strftime('%B')`
is locale-independent because the program never calls `setlocale`), and
the year component is its four-digit decimal calendar year. -/
theorem C8_path_components (today : PyDateTime) (tags : Nat → Option String)
    (storage : String) (f : FileDesc) (exif : List (Nat × String))
    (hc : validYM f.ctime) (hm : validYM f.mtime) :
    monthName (earliestDateOf today tags exif f.ctime f.mtime).month ∈ englishMonths ∧
    (toString (earliestDateOf today tags exif f.ctime f.mtime).year).length = 4 ∧
    computeDest today tags storage f exif =
      storage ++ "/" ++ toString (earliestDateOf today tags exif f.ctime f.mtime).year
        ++ "/" ++ monthName (earliestDateOf today tags exif f.ctime f.mtime).month
        ++ "/" ++ basename f.path := by
  have hbounds : validYM (earliestDateOf today tags exif f.ctime f.mtime) := by
    rw [earliestDateOf_eq]
    rcases pymin_cases f.ctime f.mtime with h | h
    · rw [h]; exact hc
    · rw [h]; exact hm
  refine ⟨monthName_mem _ hbounds.1 hbounds.2.1,
    natToString_length_four _ hbounds.2.2.1 hbounds.2.2.2, ?_⟩
  unfold computeDest
  rfl

/-- C8 witness input: stat times in August and September 2023. -/
def c8File : FileDesc :=
  ⟨"x/y/z.jpg", some [], ⟨2023, 9, 2, 1, 2, 3⟩, ⟨2023, 8, 30, 4, 5, 6⟩,
    false, false⟩

/-- C8 witness: the components evaluated concretely (the earliest date of
the witness input is the August mtime). -/
theorem C8_witness :
    monthName (earliestDateOf todayMid2025 tagsPIL [] c8File.ctime c8File.mtime).month
      ∈ englishMonths ∧
    (toString (earliestDateOf todayMid2025 tagsPIL [] c8File.ctime c8File.mtime).year).length
      = 4 ∧
    computeDest todayMid2025 tagsPIL "store" c8File [] =
      "store" ++ "/" ++
        toString (earliestDateOf todayMid2025 tagsPIL [] c8File.ctime c8File.mtime).year
        ++ "/" ++
        monthName (earliestDateOf todayMid2025 tagsPIL [] c8File.ctime c8File.mtime).month
        ++ "/" ++ basename c8File.path := by
  exact C8_path_components todayMid2025 tagsPIL "store" c8File []
    (by constructor <;> simp [c8File]) (by constructor <;> simp [c8File])

/-- C9: when every found file is processed without an escaping exception,
the driver completes with exit code 0 (even if some files returned
`Skipped`), prints `Copied N images to <destination>` where `N` is the
sum of the per-file results, equivalently the number of files for which
`rename_image` returned 1, and appends the safe-to-delete-source note
exactly when `N` equals the number of found files. -/
theorem C9_driver_summary (today : PyDateTime) (tags : Nat → Option String)
    (files : List FileDesc) (storage : String) (dryrun : Bool)
    (h : ∀ f ∈ files, ∃ r, renameImage today tags f storage dryrun = .ok r) :
    mainRun today tags files storage dryrun =
      .ok ⟨0,
        "Copied " ++ toString ((files.map (resultOf today tags storage dryrun)).sum)
          ++ " images to " ++ storage,
        (files.map (resultOf today tags storage dryrun)).sum == files.length⟩ ∧
    (files.map (resultOf today tags storage dryrun)).sum =
      (files.filter (fun f => resultOf today tags storage dryrun f == 1)).length := by
  constructor
  · unfold mainRun
    rw [processAll_ok today tags storage dryrun files h]
  · exact sum_eq_count_ones (resultOf today tags storage dryrun)
      (resultOf01 today tags storage dryrun) files

/-- C9 witness inputs: one readable image that copies successfully and
one unreadable file, so one of two found files is counted. -/
def c9aFile : FileDesc :=
  ⟨"p/ok.jpg", some [], ⟨2022, 5, 4, 3, 2, 1⟩, ⟨2022, 5, 4, 3, 2, 1⟩, false, false⟩

/-- C9 witness second input: an unreadable file. -/
def c9bFile : FileDesc :=
  ⟨"p/broken.jpg", none, ⟨2022, 5, 4, 3, 2, 1⟩, ⟨2022, 5, 4, 3, 2, 1⟩, false, false⟩

/-- C9 witness: with one success out of two found files the run exits 0,
reports `Copied 1 images to store`, and omits the note. -/
theorem C9_witness :
    mainRun todayMid2025 tagsPIL [c9aFile, c9bFile] "store" false =
      .ok ⟨0, "Copied 1 images to store", false⟩ ∧
    ([c9aFile, c9bFile].map (resultOf todayMid2025 tagsPIL "store" false)).sum =
      ([c9aFile, c9bFile].filter
        (fun f => resultOf todayMid2025 tagsPIL "store" false f == 1)).length := by
  have h := C9_driver_summary todayMid2025 tagsPIL [c9aFile, c9bFile] "store" false (by
    intro f hf
    simp only [List.mem_cons, List.not_mem_nil, or_false] at hf
    rcases hf with hf | hf
    · subst hf; exact ⟨_, rfl⟩
    · subst hf; exact ⟨_, rfl⟩)
  exact ⟨h.1.trans (by rfl), h.2⟩

/-- C10: on an empty find result the driver still completes normally,
exits 0, prints `Copied 0 images to <destination>`, and, since 0 found
files equal 0 copied files, appends the safe-to-delete-source note. -/
theorem C10_empty_scan (today : PyDateTime) (tags : Nat → Option String)
    (storage : String) (dryrun : Bool) :
    mainRun today tags [] storage dryrun =
      .ok ⟨0, "Copied 0 images to " ++ storage, true⟩ := by
  rfl
